import Mathlib

set_option maxRecDepth 1000000

/-
  Shallow embedding of the address/network arithmetic core of the
  kkirsche/ipaddress TypeScript library, together with proofs settling the
  frozen claims C1..C10 about it.

  Numbers: JavaScript has two relevant numeric types, `number` and `bigint`.
  All numeric values appearing in this code are mathematical integers, so both
  are embedded as Lean integers; the type tag is kept in `JSInt` because the
  source distinguishes them observably (strict equality `0n === 0` is false,
  `typeof`-based guards such as isNumber/isBigInt branch on the tag, and
  `intFromBytes` demotes a bigint to a number exactly when it fits the safe
  range).  Bitwise operators on bigints are two's-complement on arbitrary
  precision integers; they are embedded below as jsLand / jsLor / jsXor /
  jsNot, and shifts as the Lean `>>>` / multiplication by a power of two,
  which agree with JavaScript's floor-division semantics for `>>` on bigints.

  Errors: thrown exceptions are embedded with `Except Err`.  The source's
  error classes are tracked only up to the granularity the control flow
  inspects (`instanceof` checks): AddressValueError, AddressTypeError,
  NetmaskValueError/NetmaskTypeError, TypeError, and plain Error.
-/

/-- JavaScript Number.MAX_SAFE_INTEGER. -/
def MAX_SAFE_INTEGER : ℤ := 2 ^ 53 - 1

/-- utilities.ts isSafeNumber: MIN_SAFE_INTEGER <= n && n <= MAX_SAFE_INTEGER. -/
def isSafeNumber (n : ℤ) : Bool := (-MAX_SAFE_INTEGER ≤ n) && (n ≤ MAX_SAFE_INTEGER)

/-- A JavaScript integer value together with its runtime type tag
    (`number` or `bigint`). -/
inductive JSInt : Type
  | num (v : ℤ)
  | big (v : ℤ)
deriving DecidableEq

/-- The mathematical value of a JSInt. -/
def JSInt.val : JSInt → ℤ
  | .num v => v
  | .big v => v

/-- typeGuards.ts isNumber (typeof v === "number"). -/
def JSInt.isNumber : JSInt → Bool
  | .num _ => true
  | .big _ => false

/-- The pattern `isSafeNumber(n) ? Number(n) : n` used throughout the source
    to demote a bigint result to a number when it fits the safe range. -/
def demoteIfSafe (v : ℤ) : JSInt :=
  if isSafeNumber v then .num v else .big v

/-- Error kinds, at the granularity the source's control flow inspects. -/
inductive Err : Type
  | addressValue   -- AddressValueError
  | addressType    -- AddressTypeError (extends TypeError)
  | netmaskType    -- NetmaskValueError / NetmaskTypeError
  | typeError      -- TypeError
  | generic        -- plain Error
  | outOfFuel      -- artifact of the embedding: a loop ran out of fuel
deriving DecidableEq

deriving instance DecidableEq for Except

/-- Semantics of JavaScript's bigint bitwise AND (two's complement on
    arbitrary-precision integers), expressed through Nat bit operations. -/
def jsLand (a b : ℤ) : ℤ :=
  match a, b with
  | .ofNat x, .ofNat y => .ofNat (x &&& y)
  | .negSucc x, .negSucc y => .negSucc (x ||| y)
  | .ofNat x, .negSucc y => .ofNat (x - (x &&& y))
  | .negSucc x, .ofNat y => .ofNat (y - (y &&& x))

/-- Semantics of JavaScript's bigint bitwise OR. -/
def jsLor (a b : ℤ) : ℤ :=
  match a, b with
  | .ofNat x, .ofNat y => .ofNat (x ||| y)
  | .negSucc x, .negSucc y => .negSucc (x &&& y)
  | .ofNat x, .negSucc y => .negSucc (y - (y &&& x))
  | .negSucc x, .ofNat y => .negSucc (x - (x &&& y))

/-- Semantics of JavaScript's bigint bitwise XOR. -/
def jsXor (a b : ℤ) : ℤ :=
  match a, b with
  | .ofNat x, .ofNat y => .ofNat (x ^^^ y)
  | .negSucc x, .negSucc y => .ofNat (x ^^^ y)
  | .ofNat x, .negSucc y => .negSucc (x ^^^ y)
  | .negSucc x, .ofNat y => .negSucc (x ^^^ y)

/-- Semantics of JavaScript's bigint bitwise NOT: ~n = -n - 1. -/
def jsNot (a : ℤ) : ℤ := -a - 1

/-- Number of binary digits of n (for n >= 1), with explicit fuel so that the
    kernel can evaluate it; 260 exceeds every bit width in this development. -/
def binLenAux : ℕ → ℕ → ℕ
  | 0, _ => 1
  | _ + 1, 0 => 0
  | fuel + 1, n => binLenAux fuel (n / 2) + 1

/-- Length of the string produced by JavaScript's BigInt.toString(2):
    "0" has length 1, a negative value carries a leading minus sign. -/
def jsBinStrLen (z : ℤ) : ℕ :=
  if z = 0 then 1
  else if z < 0 then 1 + binLenAux 260 z.natAbs
  else binLenAux 260 z.natAbs

-- constants.ts
def IPv4LENGTH : ℕ := 32
def IPv4ALLONES : ℤ := 2 ^ 32 - 1
def IPv6LENGTH : ℕ := 128
def IPv6ALLONES : ℤ := 2 ^ 128 - 1

/-- utilities.ts _countRighthandZeroBits.  Note two ported subtleties kept
    faithfully: the guard is the strict equality `number === 0`, which is
    false when the argument is the bigint 0n; and the count is the length of
    (~n & (n-1)).toString(2), which is 1 (the string "0") when n is odd and
    2 (the string "-1") when n is the bigint 0n. -/
def _countRighthandZeroBits (number : JSInt) (bits : ℕ) : ℕ :=
  if number = JSInt.num 0 then bits
  else min bits (jsBinStrLen (jsLand (jsNot number.val) (number.val - 1)))

/-- _IPAddressBase.ts _baseIpIntFromPrefix (also _BaseV4 _ipIntFromPrefix):
    ALL_ONES ^ (ALL_ONES >> prefixlen), demoted to a number when safe. -/
def _baseIpIntFromPrefix (ALL_ONES : ℤ) (prefixlen : ℕ) : JSInt :=
  demoteIfSafe (jsXor ALL_ONES (ALL_ONES >>> prefixlen))

/-- IPv4Address._ipIntFromPrefix (part 01-IPv4Address): same computation but
    throws when the result is not a safe number (never for 0 <= p <= 32). -/
def IPv4Address_ipIntFromPrefix (prefixlen : ℕ) : Except Err JSInt :=
  let result := jsXor IPv4ALLONES (IPv4ALLONES >>> prefixlen)
  if isSafeNumber result then .ok (.num result) else .error .generic

/-- IPv6Address._ipIntFromPrefix: ALL_ONES ^ (ALL_ONES >> prefixlen) computed
    on bigints with no demotion (the result stays a bigint). -/
def IPv6Address_ipIntFromPrefix (prefixlen : ℕ) : JSInt :=
  .big (jsXor IPv6ALLONES (IPv6ALLONES >>> prefixlen))

/-- _IPAddressBase.ts _basePrefixFromIpInt (= IPv6Address._prefixFromIpInt
    with maxPrefixlen 128, IPv4Address._prefixFromIpInt with 32): count
    righthand zero bits t, candidate prefix maxlen - t, then verify that
    ipInt >> t equals (1 << prefix) - 1; otherwise TypeError. -/
def _basePrefixFromIpInt (maxPrefixlen : ℕ) (ipInt : JSInt) : Except Err ℕ :=
  let trailingZeroes := _countRighthandZeroBits ipInt maxPrefixlen
  let prefixlen := maxPrefixlen - trailingZeroes
  let leadingOnes := ipInt.val >>> trailingZeroes
  let allOnes := (2 : ℤ) ^ prefixlen - 1
  if leadingOnes ≠ allOnes then .error .typeError
  else .ok prefixlen

/-- The family-4 netmask involution of the spec: prefix -> netmask integer ->
    prefix, composed exactly as the code composes it. -/
def netmaskInvolution4 (p : ℕ) : Except Err ℕ := do
  let m ← IPv4Address_ipIntFromPrefix p
  _basePrefixFromIpInt IPv4LENGTH m

/-- The family-6 netmask involution of the spec. -/
def netmaskInvolution6 (p : ℕ) : Except Err ℕ :=
  _basePrefixFromIpInt IPv6LENGTH ( IPv6Address_ipIntFromPrefix p)

example : netmaskInvolution4 24 = .ok 24 := by decide
example : netmaskInvolution4 0 = .ok 0 := by decide
example : netmaskInvolution4 32 = .ok 31 := by decide
example : netmaskInvolution6 64 = .ok 64 := by decide
example : netmaskInvolution6 128 = .ok 127 := by decide
example : netmaskInvolution6 0 = .error .typeError := by decide

/- ---------------------------------------------------------------------
   Strings.  JavaScript strings are embedded as Lean lists of characters.
   --------------------------------------------------------------------- -/

/-- String.prototype.split with a single-character separator:
    "a::b".split(":") = ["a", "", "b"], "".split(":") = [""]. -/
def jsSplitAux (sep : Char) : List Char → List Char → List (List Char)
  | [], acc => [acc.reverse]
  | c :: rest, acc =>
    if c = sep then acc.reverse :: jsSplitAux sep rest []
    else jsSplitAux sep rest (c :: acc)

def jsSplit (sep : Char) (s : List Char) : List (List Char) := jsSplitAux sep s []

/-- The whitespace skipped by parseInt and String.prototype.trim
    (restricted to the ASCII whitespace that can occur here). -/
def isJsWhitespace (c : Char) : Bool :=
  c = ' ' || c = '\t' || c = '\n' || c = '\r'

/-- String.prototype.trim. -/
def jsTrim (s : List Char) : List Char :=
  ((s.dropWhile isJsWhitespace).reverse.dropWhile isJsWhitespace).reverse

/-- utilities.ts strIsAscii: every code point in [0, 127]. -/
def strIsAscii (c : List Char) : Bool := c.all (fun ch => ch.toNat ≤ 127)

/-- utilities.ts strIsDigit: every code point in [48, 57]. -/
def strIsDigit (c : List Char) : Bool :=
  c.all (fun ch => 48 ≤ ch.toNat && ch.toNat ≤ 57)

/-- Value of a single digit character in the given radix (JS parseInt digit
    alphabet: 0-9, then case-insensitive letters). -/
def jsDigitVal (radix : ℕ) (c : Char) : Option ℕ :=
  let n := c.toNat
  if 48 ≤ n ∧ n ≤ 57 ∧ n - 48 < radix then some (n - 48)
  else if 97 ≤ n ∧ n ≤ 122 ∧ n - 87 < radix then some (n - 87)
  else if 65 ≤ n ∧ n ≤ 90 ∧ n - 55 < radix then some (n - 55)
  else none

/-- Longest digit prefix in the given radix; none when no digit was consumed
    (parseInt then evaluates to NaN). -/
def jsParseDigits (radix : ℕ) : List Char → Option ℕ → Option ℕ
  | [], acc => acc
  | c :: rest, acc =>
    match jsDigitVal radix c with
    | some d => jsParseDigits radix rest (some (acc.getD 0 * radix + d))
    | none => acc

/-- JavaScript parseInt(s, radix): skip whitespace, optional sign, then the
    longest digit prefix; NaN (none) when no digit is present.  The "0x"
    prefix special case cannot occur at this function's call sites: octet
    and prefix strings were checked to be decimal digits or start the parse
    at a non-digit, and hextet strings were checked against the hex digit
    alphabet which excludes 'x'. -/
def jsParseInt (radix : ℕ) (s : List Char) : Option ℤ :=
  match s.dropWhile isJsWhitespace with
  | '-' :: rest => (jsParseDigits radix rest none).map (fun n => -(n : ℤ))
  | '+' :: rest => (jsParseDigits radix rest none).map (fun n => (n : ℤ))
  | s1 => (jsParseDigits radix s1 none).map (fun n => (n : ℤ))

/-- Modelled from the spec (the utilities file defining isSuperset is not in
    src): membership of every character of the candidate string in the given
    character set, as used by the hextet digit check. -/
def isSuperset (set : List Char) (subset : List Char) : Bool :=
  subset.all (fun c => set.contains c)

/-- JavaScript array indexing as used with a possibly negative index:
    a negative index reads a property that does not exist and yields
    undefined (none). -/
def jsIndex {α : Type} (l : List α) (i : ℤ) : Option α :=
  if i < 0 then none else l[i.toNat]?

/- ---------------------------------------------------------------------
   Integer/byte codec (utilities.ts).
   --------------------------------------------------------------------- -/

inductive ByteOrder : Type
  | big
  | little
deriving DecidableEq

/-- The value Σ byte_i · 2^(8·i) of a little-endian ordered byte list; this
    is the sum computed by intFromBytes' map/reduce over littleOrdered
    (written in Horner form). -/
def jsLEValue : List ℤ → ℤ
  | [] => 0
  | b :: rest => b + 256 * jsLEValue rest

/-- utilities.ts intFromBytes.  The pair returned is (result, final state of
    the input array): for byte order "big" the source computes
    `littleOrdered = bytes.reverse()`, and Array.prototype.reverse reverses
    the array IN PLACE, so the caller's array ends up reversed.  The result
    is demoted to a number when it fits the safe integer range.  The signed
    branch reads the last byte (throwing on an empty array) and, when its
    top bit is set, REPLACES n by 1 << 8·len (the source assigns instead of
    subtracting); it is unused by address logic. -/
def intFromBytesRun (bytes : List ℤ) (byteOrder : ByteOrder) (signed : Bool) :
    Except Err JSInt × List ℤ :=
  let littleOrdered := match byteOrder with
    | .little => bytes
    | .big => bytes.reverse
  let n := jsLEValue littleOrdered
  if signed then
    match littleOrdered.getLast? with
    | none => (.error .typeError, littleOrdered)
    | some lastByte =>
      let n := if jsLand lastByte 0x80 ≠ 0 then (2 : ℤ) ^ (8 * littleOrdered.length) else n
      (.ok (demoteIfSafe n), littleOrdered)
  else (.ok (demoteIfSafe n), littleOrdered)

/-- utilities.ts intToBytes (only reached with a nonnegative value and
    byte order "big" in this development); each byte is
    (n >> 8·i) & 0xff for the index list [length-1, ..., 0].
    convertByteToNumber's safe-range check always passes for these
    values since each is in [0, 255]. -/
def intToBytes (n : ℤ) (length : ℕ) (byteOrder : ByteOrder) : List ℤ :=
  let order := match byteOrder with
    | .little => List.range length
    | .big => (List.range length).reverse
  order.map (fun i => jsLand (n >>> (i * 8)) 0xff)

/- ---------------------------------------------------------------------
   IPv4 address parsing and formatting.
   --------------------------------------------------------------------- -/

/-- IPv4Address._parseOctet (base.ts lines 249-277, identically duplicated in
    _BaseV4 and the part-001/part-013 classes).  The value NaN is modelled as
    none: parseInt of a digit-less string is NaN, and `NaN > 255` is false,
    so NaN is returned rather than rejected.  The character check is the
    source's `!strIsAscii(s) && !strIsDigit(s)` (with &&, not ||). -/
def _parseOctet (octetStr : List Char) : Except Err (Option ℤ) :=
  if octetStr = [] then .error .typeError
  else if !strIsAscii octetStr && !strIsDigit octetStr then .error .typeError
  else if octetStr.length > 3 then .error .typeError
  else if octetStr ≠ ['0'] && octetStr.head? = some '0' then .error .typeError
  else
    match jsParseInt 10 octetStr with
    | some v => if v > 255 then .error .typeError else .ok (some v)
    | none => .ok none

/-- The left-to-right `octets.map(octet => _parseOctet(octet))`, propagating
    the first thrown error. -/
def mapParseOctets : List (List Char) → Except Err (List (Option ℤ))
  | [] => .ok []
  | o :: rest => do
    let v ← _parseOctet o
    let vs ← mapParseOctets rest
    .ok (v :: vs)

/-- IPv4Address._ipIntFromString: split on ".", require 4 octets, parse each
    octet, pack big-endian via intFromBytes.  Every error thrown inside
    (including the RangeError raised by BigInt(NaN) inside intFromBytes when
    an octet parsed to NaN) is caught and rethrown as an address error. -/
def IPv4Address_ipIntFromString (ipStr : List Char) : Except Err ℤ :=
  if ipStr = [] then .error .addressType
  else
    let octets := jsSplit '.' ipStr
    if octets.length ≠ 4 then .error .addressType
    else
      match mapParseOctets octets with
      | .error _ => .error .addressType
      | .ok vals =>
        if vals.any (fun v => v = none) then .error .addressType
        else
          let bytes := vals.map (fun v => v.getD 0)
          match intFromBytesRun bytes .big false with
          | (.ok ji, _) => if !ji.isNumber then .error .addressType else .ok ji.val
          | (.error _, _) => .error .addressType

/-- IPv4Address constructor, string branch: reject '/' then parse. -/
def IPv4Address_fromString (s : List Char) : Except Err ℤ :=
  if s.contains '/' then .error .addressType
  else IPv4Address_ipIntFromString s

/-- IPv4Address._checkIntAddress: 0 <= address <= ALL_ONES. -/
def IPv4Address_checkIntAddress (address : ℤ) : Except Err ℤ :=
  if address < 0 then .error .addressType
  else if address > IPv4ALLONES then .error .addressType
  else .ok address

/-- IPv4Address constructor, bigint branch (part 01-IPv4Address): a bigint is
    demoted to a number when safe (else rejected), then range checked. -/
def IPv4Address_fromBigInt (v : ℤ) : Except Err ℤ :=
  if !isSafeNumber v then .error .addressValue
  else IPv4Address_checkIntAddress v

/-- IPv4Address constructor, packed-bytes branch as written in base.ts lines
    166-178: the branch validates the length and assigns this._ip, but the
    assignment is not followed by a return, so control falls through to the
    unconditional `throw new TypeError("Packed IP addresses must be arrays
    of numbers")`.  Construction from a byte array therefore always throws
    (AddressTypeError on a wrong length, TypeError otherwise). -/
def IPv4Address_fromPacked_base (address : List ℤ) : Except Err ℤ :=
  if address.length ≠ 4 then .error .addressType
  else .error .typeError

/-- IPv4Address constructor, packed-bytes branch of the part 01-IPv4Address
    class (with the return in place): length check, then big-endian
    intFromBytes. -/
def IPv4Address_fromPacked (address : List ℤ) : Except Err ℤ :=
  if address.length ≠ 4 then .error .addressValue
  else
    match intFromBytesRun address .big false with
    | (.ok ji, _) => if !ji.isNumber then .error .addressValue else .ok ji.val
    | (.error e, _) => .error e

/-- _BaseV4._stringFromIpInt: intToBytes(ipInt, 4, "big"), decimal, joined
    with ".". -/
def _stringFromIpInt4 (ipInt : ℤ) : List Char :=
  ((intToBytes ipInt 4 .big).map (fun b => (Nat.repr b.toNat))).intersperse "." |>.foldl
    (fun acc s => acc ++ s.data) []

example : jsSplit '.' "0.255.255.255".data = ["0".data, "255".data, "255".data, "255".data] := by decide
example : IPv4Address_ipIntFromString "192.168.0.1".data = .ok 3232235521 := by decide
example : IPv4Address_ipIntFromString "1a.2.3.4".data = .ok 0x01020304 := by decide
example : _stringFromIpInt4 3232235521 = "192.168.0.1".data := by decide

/- ---------------------------------------------------------------------
   Prefix/netmask algebra, string side.
   --------------------------------------------------------------------- -/

/-- _IPAddressBase.ts _basePrefixFromPrefixString: strict ascii-digit check,
    parseInt, finiteness and range check. -/
def _basePrefixFromPrefixString (maxPrefixlen : ℕ) (prefixlenStr : List Char) :
    Except Err ℕ :=
  if !(strIsAscii prefixlenStr && strIsDigit prefixlenStr) then .error .netmaskType
  else
    match jsParseInt 10 prefixlenStr with
    | none => .error .netmaskType
    | some p =>
      if !(0 ≤ p ∧ p ≤ (maxPrefixlen : ℤ)) then .error .netmaskType
      else .ok p.toNat

/-- _IPAddressBase.ts _basePrefixFromIpString instantiated with the IPv4
    address class: parse the mask as an IPv4 address (a parse failure is
    reported as an invalid netmask); try the integer as a netmask via
    _basePrefixFromIpInt (the argument is a number there); on a TypeError,
    complement the bits (a bigint) and retry as a hostmask; report an
    invalid netmask when both attempts fail. -/
def _basePrefixFromIpString4 (ipStr : List Char) : Except Err ℕ :=
  match IPv4Address_ipIntFromString ipStr with
  | .error _ => .error .netmaskType
  | .ok ipInt =>
    match _basePrefixFromIpInt IPv4LENGTH (.num ipInt) with
    | .ok p => .ok p
    | .error e =>
      if e ≠ .typeError then .error e
      else
        let inverted := jsXor ipInt IPv4ALLONES
        match _basePrefixFromIpInt IPv4LENGTH (.big inverted) with
        | .ok p => .ok p
        | .error _ => .error .netmaskType

/-- _BaseV4._makeNetmask: a numeric argument is a prefix length (range
    checked); a string argument is tried as a prefix-length numeral and, on
    failure, as a netmask/hostmask string.  The netmask address is built via
    the IPv4 constructor.  The memoization cache is omitted: the derivation
    is pure, so caching cannot affect the result. -/
def _makeNetmask4 (arg : ℕ ⊕ List Char) : Except Err (ℤ × ℕ) := do
  let prefixlen ←
    match arg with
    | .inl p =>
      if !(p ≤ IPv4LENGTH) then .error .netmaskType else .ok p
    | .inr s =>
      match _basePrefixFromPrefixString IPv4LENGTH s with
      | .ok p => .ok p
      | .error _ => _basePrefixFromIpString4 s
  let m ← IPv4Address_ipIntFromPrefix prefixlen
  let netmask ← IPv4Address_checkIntAddress m.val
  .ok (netmask, prefixlen)

example : _basePrefixFromIpString4 "0.255.255.255".data = .ok 8 := by decide
example : _basePrefixFromIpString4 "255.0.0.0".data = .ok 8 := by decide

/- ---------------------------------------------------------------------
   IPv4 network model (src/src/IPv4Network.ts delegating to _BaseNetwork.ts).
   --------------------------------------------------------------------- -/

structure IPv4Net : Type where
  networkAddress : ℤ
  netmask : ℤ
  prefixlen : ℕ
deriving DecidableEq

/-- utilities.ts _splitOptionalNetmask: split on "/" and require exactly two
    components. -/
def _splitOptionalNetmask (address : List Char) : Except Err (List Char × List Char) :=
  let addr := jsSplit '/' address
  if addr.length ≠ 2 then .error .addressType
  else .ok (addr.headD [], (addr[1]?).getD [])

/-- _IPAddressBase.ts _baseSplitAddrPrefix for a string argument, as called
    by the IPv4Network constructor: the address is split off the "/", but
    the function returns the passed-in DEFAULT prefix length (the family
    maximum, 32) rather than the mask component, which is discarded. -/
def IPv4Network_splitAddrPrefix (address : List Char) : Except Err (List Char × ℕ) := do
  let p ← _splitOptionalNetmask address
  .ok (p.1, IPv4LENGTH)

/-- The common tail of the IPv4Network constructor (lines 58-73): derive the
    netmask pair, then clear or reject host bits according to `strict`. -/
def IPv4Network_finish (networkAddress : ℤ) (mask : ℕ) (strict : Bool) :
    Except Err IPv4Net := do
  let (netmask, prefixlen) ← _makeNetmask4 (.inl mask)
  let packed := networkAddress
  if jsLand packed netmask ≠ packed then
    if strict then .error .typeError
    else .ok ⟨jsLand packed netmask, netmask, prefixlen⟩
  else .ok ⟨networkAddress, netmask, prefixlen⟩

/-- IPv4Network constructor on a string argument. -/
def IPv4Network_fromString (address : List Char) (strict : Bool) :
    Except Err IPv4Net := do
  let (addr, mask) ← IPv4Network_splitAddrPrefix address
  let networkAddress ← IPv4Address_fromString addr
  IPv4Network_finish networkAddress mask strict

/-- IPv4Network constructor on an array argument, as produced by the subnets
    generator's `new cls([newAddr, newPrefixlen])`: _baseSplitAddrPrefix
    classifies the two-element numeric tuple as a packed byte array and
    returns it with the default prefix length, so the address class receives
    it as a packed address. -/
def IPv4Network_fromArray (arr : List ℤ) (strict : Bool) : Except Err IPv4Net := do
  let networkAddress ← IPv4Address_fromPacked arr
  IPv4Network_finish networkAddress IPv4LENGTH strict

/-- _BaseNetworkStruct.hostmask (lines 160-167 of _BaseNetwork.ts):
    networkAddress XOR ALL_ONES, passed through the address constructor. -/
def _BaseNetworkStruct_hostmask (net : IPv4Net) : Except Err ℤ :=
  IPv4Address_fromBigInt (jsXor net.networkAddress IPv4ALLONES)

/-- _BaseNetworkStruct.broadcastAddress (lines 152-159):
    networkAddress OR hostmask. -/
def _BaseNetworkStruct_broadcastAddress (net : IPv4Net) : Except Err ℤ := do
  let hm ← _BaseNetworkStruct_hostmask net
  IPv4Address_fromBigInt (jsLor net.networkAddress hm)

/-- IPv4Network.hostmask of the part-014 class (lines 474-478 there):
    netmask XOR ALL_ONES. -/
def IPv4Network_hostmask_part014 (net : IPv4Net) : Except Err ℤ :=
  IPv4Address_fromBigInt (jsXor net.netmask IPv4ALLONES)

/-- _BaseNetworkStruct.equals: same version, equal network address, equal
    netmask value (the version test is 4 === 4 for two IPv4 networks). -/
def IPv4Network_equals (a b : IPv4Net) : Bool :=
  a.networkAddress == b.networkAddress && a.netmask == b.netmask

/-- _BaseNetworkStruct._isSubnetOf: b.network <= a.network and
    a.broadcast <= b.broadcast (both computed with the struct's
    broadcastAddress). -/
def IPv4Network_isSubnetOf (a b : IPv4Net) : Except Err Bool := do
  let lessThanOrEqualToNetworkAddr :=
    b.networkAddress < a.networkAddress || b.networkAddress == a.networkAddress
  let abc ← _BaseNetworkStruct_broadcastAddress a
  let bbc ← _BaseNetworkStruct_broadcastAddress b
  let greaterThanOrEqualToBroadcastAddr := abc < bbc || abc == bbc
  .ok (lessThanOrEqualToNetworkAddr && greaterThanOrEqualToBroadcastAddr)

/-- _BaseNetworkStruct.toString: `networkAddress/prefixlen`. -/
def IPv4Network_toString (net : IPv4Net) : List Char :=
  _stringFromIpInt4 net.networkAddress ++ "/".data ++ (Nat.repr net.prefixlen).data

/-- The subnets generator (_BaseNetwork.ts lines 288-330) with the default
    arguments (prefixlenDiff 1, newPrefix null), as the list of values it
    yields before finishing or throwing.  At the maximum prefix length it
    yields the network itself once and finishes.  Otherwise it computes the
    start/end/step values and enters
    `for (let newAddr = start; newAddr < end; step)`, whose update
    expression evaluates `step` without ever changing newAddr; the body's
    first action, `new IPv4Network([newAddr, newPrefixlen])`, throws because
    the two-element tuple is treated as a packed 4-byte address, so the
    first next() of the generator propagates that error.  (Were the
    construction to succeed, the loop would repeat it forever with the same
    newAddr; that unreachable case is marked outOfFuel.) -/
def IPv4Network_subnetsList (obj : IPv4Net) : Except Err (List IPv4Net) :=
  if obj.prefixlen = IPv4LENGTH then .ok [obj]
  else
    let newPrefixlen := obj.prefixlen + 1
    if newPrefixlen > IPv4LENGTH then .error .generic
    else do
      let start := obj.networkAddress
      let stop ← _BaseNetworkStruct_broadcastAddress obj
      if start < stop then
        match IPv4Network_fromArray [start, (newPrefixlen : ℤ)] true with
        | .error e => .error e
        | .ok _ => .error .outOfFuel
      else .ok []

/-- One iteration state of the addressExclude while-loop: current s1, s2,
    the not-yet-consumed yields of the parent's subnets generator, and the
    accumulated yields of addressExclude itself.  When the parent generator
    is exhausted, si1.done/si2.done are true and the source KEEPS the stale
    s1/s2 values, so the loop can only stop through the equals tests (the
    fuel models that potential divergence). -/
def addressExcludeLoop (other : IPv4Net) :
    ℕ → IPv4Net → IPv4Net → List IPv4Net → List IPv4Net → Except Err (List IPv4Net)
  | 0, _, _, _, _ => .error .outOfFuel
  | fuel + 1, s1, s2, pending, acc =>
    if IPv4Network_equals s1 other || IPv4Network_equals s2 other then
      .ok acc.reverse
    else do
      let sub1 ← IPv4Network_isSubnetOf other s1
      if sub1 then
        match pending with
        | n1 :: n2 :: rest => addressExcludeLoop other fuel n1 n2 rest (s2 :: acc)
        | [n1] => addressExcludeLoop other fuel n1 s2 [] (s2 :: acc)
        | [] => addressExcludeLoop other fuel s1 s2 [] (s2 :: acc)
      else do
        let sub2 ← IPv4Network_isSubnetOf other s2
        if sub2 then
          match pending with
          | n1 :: n2 :: rest => addressExcludeLoop other fuel n1 n2 rest (s1 :: acc)
          | [n1] => addressExcludeLoop other fuel n1 s2 [] (s1 :: acc)
          | [] => addressExcludeLoop other fuel s1 s2 [] (s1 :: acc)
        else .error .generic

/-- addressExclude (_BaseNetwork.ts lines 332-393): family check (both
    family 4 here), containment check, the equal-networks early return
    yielding nothing, re-normalization of `other` through the string
    constructor, then the bisection driver; the driver's while loop only
    runs when the parent generator produced at least two yields (both
    si1.done and si2.done false). -/
def IPv4Network_addressExclude (obj other : IPv4Net) (fuel : ℕ) :
    Except Err (List IPv4Net) := do
  let sub ← IPv4Network_isSubnetOf other obj
  if !sub then .error .generic
  else if IPv4Network_equals other obj then .ok []
  else do
    let otherNorm ← IPv4Network_fromString (IPv4Network_toString other) true
    let ys ← IPv4Network_subnetsList obj
    match ys with
    | s1 :: s2 :: rest => addressExcludeLoop otherNorm fuel s1 s2 rest []
    | _ => .ok []

example : IPv4Network_fromString "10.0.0.5/24".data true =
    .ok ⟨0x0A000005, 0xFFFFFFFF, 32⟩ := by decide
example : IPv4Network_fromString "192.0.2.0/28".data true =
    .ok ⟨0xC0000200, 0xFFFFFFFF, 32⟩ := by decide
example : ∀ fuel, IPv4Network_addressExclude ⟨0xC0000200, 0xFFFFFFFF, 32⟩
    ⟨0xC0000201, 0xFFFFFFFF, 32⟩ fuel = .ok [] := fun _ => rfl

/- ---------------------------------------------------------------------
   IPv6 addresses (src/src/IPv6Address.ts).
   --------------------------------------------------------------------- -/

def HEX_DIGITS : List Char := "0123456789ABCDEFabcdef".data

structure IPv6Addr : Type where
  _ip : ℤ
  _scopeId : Option (List Char)
deriving DecidableEq

/-- IPv6Address._splitScopeId: split on "%" (all occurrences — the source
    does not bound the split), take parts[0] as the address; `parts[1] ||
    null` turns both undefined and the empty string into null; a present
    "%" with a null scope id is rejected. -/
def IPv6Address_splitScopeId (ipStr : List Char) :
    Except Err (List Char × Option (List Char)) :=
  let parts := jsSplit '%' ipStr
  let addr := parts.headD []
  let sep := ipStr.contains '%'
  let scopeId : Option (List Char) :=
    match parts[1]? with
    | none => none
    | some [] => none
    | some s => some s
  if !sep then .ok (addr, none)
  else
    match scopeId with
    | none => .error .addressValue
    | some s =>
      if s.contains '%' then .error .addressValue
      else .ok (addr, some s)

/-- IPv6Address._parseHextet.  The argument is an Option because the caller
    indexes the parts array with a NEGATIVE index in the low-hextets loop,
    which in JavaScript yields undefined: every operation this function
    performs on undefined (iterating it in isSuperset, or reading its
    .length) throws a TypeError, so undefined is mapped to an error. -/
def IPv6Address_parseHextet (hextetStr : Option (List Char)) : Except Err ℤ :=
  match hextetStr with
  | none => .error .typeError
  | some s =>
    if !isSuperset HEX_DIGITS s then .error .generic
    else if s.length > 4 then .error .generic
    else
      match jsParseInt 16 s with
      | none => .error .generic
      | some v => .ok v

/-- The scan of interior parts for the "::" gap (at most one empty interior
    part, indices 1 .. length-2). -/
def findSkipIndex (parts : List (List Char)) : Except Err (Option ℕ) :=
  (((List.range parts.length).drop 1).dropLast).foldl
    (fun acc i =>
      match acc with
      | .error e => .error e
      | .ok skip =>
        if (parts[i]?.getD []) = [] then
          match skip with
          | some _ => .error .addressValue
          | none => .ok (some i)
        else .ok skip)
    (.ok none)

/-- The high-hextets loop: `for i in [0, partsHi): ipInt <<= 16;
    ipInt |= parseHextet(parts[i])`. -/
def hextetHiLoop : List (List Char) → ℤ → Except Err ℤ
  | [], acc => .ok acc
  | p :: rest, acc => do
    let h ← IPv6Address_parseHextet (some p)
    hextetHiLoop rest (jsLor (acc * 2 ^ 16) h)

/-- The low-hextets loop: `for i in [-partsLo, 0): ipInt <<= 16;
    ipInt |= parseHextet(parts[i])`, where parts[i] with the negative
    index i is undefined. -/
def hextetLoLoop (parts : List (List Char)) : List ℤ → ℤ → Except Err ℤ
  | [], acc => .ok acc
  | i :: rest, acc => do
    let h ← IPv6Address_parseHextet (jsIndex parts i)
    hextetLoLoop parts rest (jsLor (acc * 2 ^ 16) h)

/-- Lowercase hexadecimal rendering, BigInt.prototype.toString(16). -/
def natToHex (n : ℕ) : List Char := Nat.toDigits 16 n

/-- IPv6Address._ipIntFromString (lines 328-465).  Kept faithful to the
    source, including: the trailing dotted-quad replacement; the gap
    bookkeeping with `partsSkipped = HEXTET_COUNT - (partsHi + partsHi)`
    (the source adds partsHi twice where the original algorithm adds
    partsHi + partsLo); and the low-hextets loop indexing parts with
    negative indices (undefined in JavaScript), whose TypeError is caught
    by the surrounding try and rethrown as an AddressValueError. -/
def IPv6Address_ipIntFromString (ipStr : List Char) : Except Err ℤ :=
  if (jsTrim ipStr).length = 0 then .error .addressValue
  else
  let parts := jsSplit ':' ipStr
  if parts.length < 3 then .error .addressValue
  else
  let withV4 : Except Err (List (List Char)) :=
    if (parts.getLast?.getD []).contains '.' then
      match IPv4Address_fromString (parts.getLast?.getD []) with
      | .error _ => .error .addressValue
      | .ok ipv4Int =>
        .ok (parts.dropLast
          ++ [natToHex (jsLand (ipv4Int >>> 16) 0xffff).toNat]
          ++ [natToHex (jsLand ipv4Int 0xffff).toNat])
    else .ok parts
  match withV4 with
  | .error e => .error e
  | .ok parts =>
  if parts.length > 9 then .error .addressValue
  else
  match findSkipIndex parts with
  | .error e => .error e
  | .ok skipIndex =>
  let counts : Except Err (ℕ × ℕ × ℕ) :=
    match skipIndex with
    | some skip =>
      let partsHi0 := skip
      let partsLo0 := parts.length - skip - 1
      let checkHi : Except Err ℕ :=
        if parts.headD [] = [] then
          (if partsHi0 - 1 ≠ 0 then .error .addressValue else .ok (partsHi0 - 1))
        else .ok partsHi0
      match checkHi with
      | .error e => .error e
      | .ok partsHi =>
        let checkLo : Except Err ℕ :=
          if parts.getLast?.getD [] = [] then
            (if partsLo0 - 1 ≠ 0 then .error .addressValue else .ok (partsLo0 - 1))
          else .ok partsLo0
        match checkLo with
        | .error e => .error e
        | .ok partsLo =>
          let partsSkipped : ℤ := 8 - ((partsHi : ℤ) + (partsHi : ℤ))
          if partsSkipped < 1 then .error .addressValue
          else .ok (partsHi, partsLo, partsSkipped.toNat)
    | none =>
      if parts.length ≠ 8 then .error .addressValue
      else if parts.headD [] = [] then .error .addressValue
      else if parts.getLast?.getD [] = [] then .error .addressValue
      else .ok (parts.length, 0, 0)
  match counts with
  | .error e => .error e
  | .ok (partsHi, partsLo, partsSkipped) =>
    let assembled : Except Err ℤ := do
      let acc1 ← hextetHiLoop (parts.take partsHi) 0
      let acc2 := acc1 * 2 ^ (16 * partsSkipped)
      hextetLoLoop parts ((List.range partsLo).map (fun j => -(partsLo : ℤ) + j)) acc2
    match assembled with
    | .error _ => .error .addressValue
    | .ok v => .ok v

/-- IPv6Address constructor, string branch: reject '/', split the scope id,
    parse the address part. -/
def IPv6Address_fromString (s : List Char) : Except Err IPv6Addr := do
  if s.contains '/' then .error .addressValue
  else do
    let (addr, scope) ← IPv6Address_splitScopeId s
    let v ← IPv6Address_ipIntFromString addr
    .ok ⟨v, scope⟩

/-- IPv6Address.equals (lines 250-252):
    `this.version === other.version && this._ip === other._ip`.  Both
    operands here are IPv6 addresses, so the version test is 6 === 6; the
    scope identifier is not consulted. -/
def IPv6Address_equals (a b : IPv6Addr) : Bool :=
  a._ip == b._ip

/-- IPv6Address constructor, packed-bytes branch (lines 56-66), with the
    final state of the input array: length check, big-endian intFromBytes
    (which reverses the array in place), then the guard rejecting a result
    of type number — i.e. any 16-byte value within the safe integer range
    is REJECTED with "Unexpected number for IPv6 address". -/
def IPv6Address_fromPacked (address : List ℤ) : Except Err IPv6Addr × List ℤ :=
  if address.length ≠ 16 then (.error .addressValue, address)
  else
    match intFromBytesRun address .big false with
    | (.ok ji, st) =>
      if ji.isNumber then (.error .addressValue, st)
      else (.ok ⟨ji.val, none⟩, st)
    | (.error e, st) => (.error e, st)

example : IPv6Address_ipIntFromString "2001:db8::1".data = .error .addressValue := by decide
example : IPv6Address_ipIntFromString "2001:db8::".data = .ok (0x20010db8 * 2 ^ 64) := by decide
example : IPv6Address_ipIntFromString "fe80:0:0:0:0:0:0:1".data =
    .ok (0xfe80 * 2 ^ 112 + 1) := by decide
example : IPv6Address_fromString "fe80:0:0:0:0:0:0:1%eth0".data =
    .ok ⟨0xfe80 * 2 ^ 112 + 1, some "eth0".data⟩ := by decide

/- ---------------------------------------------------------------------
   Helper lemmas.
   --------------------------------------------------------------------- -/

theorem nat_land_mask32 (n : ℕ) : n &&& (2 ^ 32 - 1) = n % 2 ^ 32 := by
  apply Nat.eq_of_testBit_eq
  intro i
  rw [Nat.testBit_and, Nat.testBit_mod_two_pow, Nat.testBit_two_pow_sub_one]
  exact Bool.and_comm _ _

theorem demoteIfSafe_val (x : ℤ) : (demoteIfSafe x).val = x := by
  unfold demoteIfSafe
  split <;> rfl

theorem intFromBytesRun_big_unsigned (b : List ℤ) :
    intFromBytesRun b .big false =
      (.ok (demoteIfSafe (jsLEValue b.reverse)), b.reverse) := rfl

theorem jsLand_allOnes_shape (p : ℤ) :
    ∃ r : ℕ, jsLand p IPv4ALLONES = Int.ofNat r ∧ r < 2 ^ 32 := by
  have hA : IPv4ALLONES = Int.ofNat (2 ^ 32 - 1) := by decide
  cases p with
  | ofNat n =>
    refine ⟨n &&& (2 ^ 32 - 1), by rw [hA]; rfl, ?_⟩
    rw [nat_land_mask32]
    exact Nat.mod_lt _ (by norm_num)
  | negSucc m =>
    refine ⟨(2 ^ 32 - 1) - ((2 ^ 32 - 1) &&& m), by rw [hA]; rfl, ?_⟩
    have := Nat.sub_le (2 ^ 32 - 1) ((2 ^ 32 - 1) &&& m)
    omega

theorem jsLand_allOnes_idem (p : ℤ) :
    jsLand (jsLand p IPv4ALLONES) IPv4ALLONES = jsLand p IPv4ALLONES := by
  obtain ⟨r, hr, hlt⟩ := jsLand_allOnes_shape p
  have hA : IPv4ALLONES = Int.ofNat (2 ^ 32 - 1) := by decide
  rw [hr, hA]
  show Int.ofNat (r &&& (2 ^ 32 - 1)) = Int.ofNat r
  rw [nat_land_mask32, Nat.mod_eq_of_lt hlt]

theorem jsLEValue_nonneg (l : List ℤ) (h : ∀ x ∈ l, 0 ≤ x) : 0 ≤ jsLEValue l := by
  induction l with
  | nil => simp [jsLEValue]
  | cons x xs ih =>
    have hx := h x (by simp)
    have hxs := ih (fun y hy => h y (by simp [hy]))
    simp only [jsLEValue]
    omega

theorem jsLEValue_inj (a : List ℤ) : ∀ b : List ℤ,
    a.length = b.length →
    (∀ x ∈ a, 0 ≤ x ∧ x < 256) →
    (∀ x ∈ b, 0 ≤ x ∧ x < 256) →
    jsLEValue a = jsLEValue b → a = b := by
  induction a with
  | nil =>
    intro b hlen _ _ _
    cases b with
    | nil => rfl
    | cons y ys => simp at hlen
  | cons x xs ih =>
    intro b hlen ha hb hv
    cases b with
    | nil => simp at hlen
    | cons y ys =>
      have hx := ha x (by simp)
      have hy := hb y (by simp)
      have hxs : ∀ z ∈ xs, 0 ≤ z ∧ z < 256 := fun z hz => ha z (by simp [hz])
      have hys : ∀ z ∈ ys, 0 ≤ z ∧ z < 256 := fun z hz => hb z (by simp [hz])
      have hXa : 0 ≤ jsLEValue xs := jsLEValue_nonneg xs (fun z hz => (hxs z hz).1)
      have hYa : 0 ≤ jsLEValue ys := jsLEValue_nonneg ys (fun z hz => (hys z hz).1)
      simp only [jsLEValue] at hv
      have hxy : x = y ∧ jsLEValue xs = jsLEValue ys := by constructor <;> omega
      have htail : xs = ys := ih ys (by simpa using hlen) hxs hys hxy.2
      rw [hxy.1, htail]

theorem IPv6Address_fromPacked_ok_spec (b : List ℤ) (a : IPv6Addr)
    (h : (IPv6Address_fromPacked b).1 = .ok a) :
    a._ip = jsLEValue b.reverse ∧ (IPv6Address_fromPacked b).2 = b.reverse := by
  by_cases hl : b.length = 16
  · rw [IPv6Address_fromPacked, if_neg (by simp [hl]), intFromBytesRun_big_unsigned] at h ⊢
    cases hd : demoteIfSafe (jsLEValue b.reverse) with
    | num v => simp [hd, JSInt.isNumber] at h
    | big v =>
      have hv : v = jsLEValue b.reverse := by
        have := demoteIfSafe_val (jsLEValue b.reverse)
        rw [hd] at this
        exact this
      simp only [hd, JSInt.isNumber, Bool.false_eq_true, if_false, JSInt.val] at h ⊢
      refine ⟨?_, trivial⟩
      cases h
      exact hv
  · rw [IPv6Address_fromPacked, if_pos (by simp [hl])] at h
    cases h

/- ---------------------------------------------------------------------
   Claim theorems.
   --------------------------------------------------------------------- -/

/-- C1: the claim states that hostmask is netmask XOR allOnes, a function of
    the netmask alone, and that broadcastAddress is networkAddress OR
    (netmask XOR allOnes).  The live _BaseNetworkStruct.hostmask instead
    computes networkAddress XOR allOnes: for the constructed network
    10.0.0.0 (netmask 255.255.255.255) it returns 245.255.255.255 where
    netmask XOR allOnes is 0, and broadcastAddress comes out as
    255.255.255.255 instead of networkAddress OR 0 = networkAddress.  The
    part-014 IPv4Network.hostmask does compute netmask XOR allOnes. -/
theorem C1_hostmask_eval :
    IPv4Network_fromString "10.0.0.0/24".data true = .ok ⟨0x0A000000, 0xFFFFFFFF, 32⟩ ∧
    _BaseNetworkStruct_hostmask ⟨0x0A000000, 0xFFFFFFFF, 32⟩ = .ok 0xF5FFFFFF ∧
    jsXor (0xFFFFFFFF : ℤ) IPv4ALLONES = 0 ∧
    (0xF5FFFFFF : ℤ) ≠ (0 : ℤ) ∧
    _BaseNetworkStruct_broadcastAddress ⟨0x0A000000, 0xFFFFFFFF, 32⟩ = .ok 0xFFFFFFFF ∧
    jsLor (0x0A000000 : ℤ) (jsXor (0xFFFFFFFF : ℤ) IPv4ALLONES) = 0x0A000000 ∧
    IPv4Network_hostmask_part014 ⟨0x0A000000, 0xFFFFFFFF, 32⟩ = .ok 0 := by
  decide

/-- C2: the claim states that converting any prefix length p to a netmask
    and back yields p.  This holds for p in [0,31] (family 4) and [1,127]
    (family 6), but fails at the endpoints: prefixFromNetmaskInt of the
    all-ones netmask returns 31 (family 4) and 127 (family 6) because
    _countRighthandZeroBits reports 1 trailing zero for an odd number (the
    string "0" has length 1), and the family-6 all-zeros netmask (prefix 0)
    is rejected with a TypeError because the bigint 0n fails the `=== 0`
    guard and (-1n).toString(2) has length 2. -/
theorem C2_netmask_involution_eval :
    (∀ p : ℕ, p ≤ 31 → netmaskInvolution4 p = .ok p) ∧
    netmaskInvolution4 32 = .ok 31 ∧
    (∀ p : ℕ, p < 128 → 1 ≤ p → netmaskInvolution6 p = .ok p) ∧
    netmaskInvolution6 128 = .ok 127 ∧
    netmaskInvolution6 0 = .error .typeError := by
  refine ⟨by decide, by decide, by decide, by decide, by decide⟩

/-- Witness for C2: the involution theorem applied at p = 24 (family 4) and
    p = 64 (family 6). -/
theorem C2_netmask_involution_witness :
    netmaskInvolution4 24 = .ok 24 ∧ netmaskInvolution6 64 = .ok 64 :=
  ⟨C2_netmask_involution_eval.1 24 (by decide),
   C2_netmask_involution_eval.2.2.1 64 (by decide) (by decide)⟩

/-- C3: the claim states that parsing "2001:db8::1" yields the integer whose
    exploded form is 2001:0db8:0000:0000:0000:0000:0000:0001 (gap of
    8 - partsHi - partsLo zero hextets) and that formatting it yields
    "2001:db8::1" back.  The code instead throws: the low-hextet loop reads
    parts[i] at a negative index, which is undefined in JavaScript, so the
    hextet parser throws and the error is rethrown as an AddressValueError.
    Independently, the gap is computed as 8 - (partsHi + partsHi): for
    "2001:db8::" (no low hextets, so the parse succeeds) the result is
    0x20010db8 · 2^64 — a 4-hextet gap — instead of 0x20010db8 · 2^96. -/
theorem C3_parse_roundtrip_eval :
    IPv6Address_ipIntFromString "2001:db8::1".data = .error .addressValue ∧
    IPv6Address_ipIntFromString "2001:db8::".data = .ok (0x20010db8 * 2 ^ 64) ∧
    (0x20010db8 * (2 : ℤ) ^ 64) ≠ (0x20010db8 * (2 : ℤ) ^ 96) := by
  decide

/-- C4: the claim states that addressExclude(192.0.2.0/28, 192.0.2.1/32)
    yields exactly the four networks 192.0.2.0/32, 192.0.2.2/31,
    192.0.2.4/30, 192.0.2.8/29.  In the code the "/28" and "/32" mask
    components are discarded by _baseSplitAddrPrefix, both networks are
    constructed as /32 networks, the parent's subnets generator yields the
    parent once and finishes (maximum prefix length), so the driver's
    while loop — which requires two live yields — never runs and
    addressExclude yields nothing at all, for every loop fuel. -/
theorem C4_addressExclude_eval :
    IPv4Network_fromString "192.0.2.0/28".data true = .ok ⟨0xC0000200, 0xFFFFFFFF, 32⟩ ∧
    IPv4Network_fromString "192.0.2.1/32".data true = .ok ⟨0xC0000201, 0xFFFFFFFF, 32⟩ ∧
    ∀ fuel : ℕ, IPv4Network_addressExclude ⟨0xC0000200, 0xFFFFFFFF, 32⟩
      ⟨0xC0000201, 0xFFFFFFFF, 32⟩ fuel = .ok [] :=
  ⟨by decide, by decide, fun _ => rfl⟩

/-- C5: the claim states that strict construction from "10.0.0.5/24" fails
    with an error and non-strict construction yields 10.0.0.0/24.  Because
    _baseSplitAddrPrefix discards the mask component and substitutes the
    default /32, the code instead constructs 10.0.0.5/32 without error in
    BOTH modes.  The masking invariant itself
    (networkAddress & netmask = networkAddress) does hold for every
    successfully constructed network. -/
theorem C5_strict_construction_eval :
    IPv4Network_fromString "10.0.0.5/24".data true = .ok ⟨0x0A000005, 0xFFFFFFFF, 32⟩ ∧
    IPv4Network_fromString "10.0.0.5/24".data false = .ok ⟨0x0A000005, 0xFFFFFFFF, 32⟩ ∧
    (∀ (s : List Char) (strict : Bool) (net : IPv4Net),
       IPv4Network_fromString s strict = .ok net →
       jsLand net.networkAddress net.netmask = net.networkAddress) := by
  refine ⟨by decide, by decide, ?_⟩
  intro s strict net h
  simp only [IPv4Network_fromString, IPv4Network_splitAddrPrefix, bind, Except.bind] at h
  cases hsp : _splitOptionalNetmask s with
  | error e => rw [hsp] at h; cases h
  | ok pr =>
    rw [hsp] at h
    simp only [Except.bind] at h
    cases hpa : IPv4Address_fromString pr.1 with
    | error e => rw [hpa] at h; cases h
    | ok na =>
      rw [hpa] at h
      have hmk : _makeNetmask4 (.inl IPv4LENGTH) = .ok ((0xFFFFFFFF : ℤ), 32) := by decide
      simp only [IPv4Network_finish, bind, Except.bind, hmk] at h
      by_cases hg : jsLand na 0xFFFFFFFF ≠ na
      · rw [if_pos hg] at h
        cases strict with
        | true => simp at h
        | false =>
          simp only [Bool.false_eq_true, if_false, Except.ok.injEq] at h
          subst h
          have hA : (0xFFFFFFFF : ℤ) = IPv4ALLONES := by decide
          simpa [hA] using jsLand_allOnes_idem na
      · rw [if_neg hg] at h
        simp only [Except.ok.injEq] at h
        subst h
        simpa using not_ne_iff.mp hg

/-- Witness for C5: the invariant clause applied to the network constructed
    from "10.0.0.5/24". -/
theorem C5_strict_construction_witness :
    jsLand (0x0A000005 : ℤ) (0xFFFFFFFF : ℤ) = (0x0A000005 : ℤ) :=
  C5_strict_construction_eval.2.2 "10.0.0.5/24".data true
    ⟨0x0A000005, 0xFFFFFFFF, 32⟩ (by decide)

/-- C6: the claim's concrete examples hold — "0.255.255.255" resolves as a
    hostmask to 8, "255.0.0.0" as a netmask to 8, all-zeros resolves as the
    /0 netmask, and a mixed pattern fails both attempts with an
    invalid-netmask error — but the ambiguous all-ones mask, which the
    claim says resolves as a netmask (prefix 32), is accepted by the
    netmask attempt with the WRONG prefix 31, because
    _countRighthandZeroBits counts 1 trailing zero in an odd number. -/
theorem C6_mask_string_eval :
    _basePrefixFromIpString4 "0.255.255.255".data = .ok 8 ∧
    _basePrefixFromIpString4 "255.0.0.0".data = .ok 8 ∧
    _basePrefixFromIpString4 "0.0.0.0".data = .ok 0 ∧
    _basePrefixFromIpString4 "255.255.255.255".data = .ok 31 ∧
    _basePrefixFromIpString4 "255.0.255.0".data = .error .netmaskType := by
  decide

/-- C7: the claim states that any family-4 octet containing a non-digit
    character is rejected.  The source tests
    `!strIsAscii(s) && !strIsDigit(s)` — with a conjunction where the
    original logic requires a disjunction — so an ASCII string with
    non-digit characters passes the check and parseInt quietly parses its
    digit prefix: octet "1a" yields 1, and the address "1a.2.3.4" parses
    successfully to 0x01020304 (the value of 1.2.3.4). -/
theorem C7_parse_octet_eval :
    _parseOctet "1a".data = .ok (some 1) ∧
    IPv4Address_ipIntFromString "1a.2.3.4".data = .ok 0x01020304 := by
  decide

/-- C8 counterexample: two family-6 addresses with the same integer value
    and different scope identifiers compare EQUAL, because
    IPv6Address.equals compares only version and _ip.  (The claim's own
    example strings "fe80::1%eth0" use the compressed form, whose parse
    throws — see C3 — so the uncompressed spelling of the same address is
    used.) -/
theorem C8_scope_equality_counterexample :
    IPv6Address_fromString "fe80:0:0:0:0:0:0:1%eth0".data =
      .ok ⟨0xfe80 * 2 ^ 112 + 1, some "eth0".data⟩ ∧
    IPv6Address_fromString "fe80:0:0:0:0:0:0:1%eth1".data =
      .ok ⟨0xfe80 * 2 ^ 112 + 1, some "eth1".data⟩ ∧
    (some "eth0".data ≠ some "eth1".data) ∧
    IPv6Address_equals ⟨0xfe80 * 2 ^ 112 + 1, some "eth0".data⟩
      ⟨0xfe80 * 2 ^ 112 + 1, some "eth1".data⟩ = true := by
  decide

/-- C8 amended: two family-6 addresses are equal exactly when their integer
    values agree; the scope identifier plays no part in equality. -/
theorem C8_equals_ignores_scope :
    (∀ a b : IPv6Addr, IPv6Address_equals a b = true ↔ a._ip = b._ip) ∧
    (∀ (a b : IPv6Addr) (s t : Option (List Char)),
       IPv6Address_equals ⟨a._ip, s⟩ ⟨b._ip, t⟩ = IPv6Address_equals a b) := by
  constructor
  · intro a b
    simp [IPv6Address_equals]
  · intro a b s t
    simp [IPv6Address_equals]

/-- C9: the claim states that construction from a fixed-length byte array
    succeeds and yields the big-endian value.  The family-4 constructor in
    base.ts NEVER succeeds on an array (the packed branch falls through to
    an unconditional throw): it errors for every input, in particular for
    [192,168,0,1] which the repository's own test expects to construct
    3232235521.  The family-6 constructor rejects every 16-byte array whose
    big-endian value fits the safe integer range (intFromBytes demotes such
    values to type number, which the constructor refuses), in particular
    ::1 packed; only values above 2^53 - 1 construct. -/
theorem C9_packed_construction_eval :
    (∀ b : List ℤ, ∃ e, IPv4Address_fromPacked_base b = .error e) ∧
    IPv4Address_fromPacked_base [192, 168, 0, 1] = .error .typeError ∧
    (IPv6Address_fromPacked (List.replicate 15 (0 : ℤ) ++ [1])).1 = .error .addressValue ∧
    (IPv6Address_fromPacked
      [0x20, 0x01, 0x0d, 0xb8, 0, 0, 0, 0, 0, 0, 0, 0, 0, 0, 0, 1]).1 =
      .ok ⟨0x20010db8 * 2 ^ 96 + 1, none⟩ := by
  refine ⟨?_, by decide, by decide, by decide⟩
  intro b
  unfold IPv4Address_fromPacked_base
  by_cases hl : b.length ≠ 4
  · exact ⟨.addressType, by rw [if_pos hl]⟩
  · exact ⟨.typeError, by rw [if_neg hl]⟩

/-- C10: intFromBytes with byte order "big" reverses its input array in
    place — the array's final state is the reversal of its original
    contents — and consequently constructing a family-6 address twice from
    the same packed array yields different address values whenever the
    array is not palindromic (both constructions succeeding). -/
theorem C10_intFromBytes_mutation :
    (∀ b : List ℤ, 2 ≤ b.length → (intFromBytesRun b .big false).2 = b.reverse) ∧
    (∀ (b : List ℤ) (a1 a2 : IPv6Addr),
       (∀ x ∈ b, 0 ≤ x ∧ x < 256) →
       b ≠ b.reverse →
       (IPv6Address_fromPacked b).1 = .ok a1 →
       (IPv6Address_fromPacked ((IPv6Address_fromPacked b).2)).1 = .ok a2 →
       a1._ip ≠ a2._ip) := by
  constructor
  · intro b _
    rfl
  · intro b a1 a2 hb hnp h1 h2
    obtain ⟨hv1, hst⟩ := IPv6Address_fromPacked_ok_spec b a1 h1
    rw [hst] at h2
    obtain ⟨hv2, _⟩ := IPv6Address_fromPacked_ok_spec b.reverse a2 h2
    rw [List.reverse_reverse] at hv2
    intro heq
    have hvv : jsLEValue b.reverse = jsLEValue b := by rw [← hv1, ← hv2, heq]
    have hrb : b.reverse = b := by
      apply jsLEValue_inj b.reverse b (by simp)
        (fun x hx => hb x (List.mem_reverse.mp hx)) hb hvv
    exact hnp hrb.symm

/-- Witness for C10: the concrete packed form of 2001:db8::1.  After the
    first construction the array is reversed; the second construction
    (from the mutated array) produces a different address value. -/
theorem C10_intFromBytes_mutation_witness :
    (intFromBytesRun [1, 2] .big false).2 = [2, 1] ∧
    ((0x20010db8 * 2 ^ 96 + 1 : ℤ) ≠
      ((2 : ℤ) ^ 120 + 0xB80D0120 : ℤ)) := by
  refine ⟨C10_intFromBytes_mutation.1 [1, 2] (by decide), ?_⟩
  exact C10_intFromBytes_mutation.2
    [0x20, 0x01, 0x0d, 0xb8, 0, 0, 0, 0, 0, 0, 0, 0, 0, 0, 0, 1]
    ⟨0x20010db8 * 2 ^ 96 + 1, none⟩ ⟨(2 : ℤ) ^ 120 + 0xB80D0120, none⟩
    (by decide) (by decide) (by decide) (by decide)
